import Mathlib

/-!
Verification of the cost-accounting and optimization layer of the
agentic-survey-research-team repository.

The Python modules `cost_optimizer.py`, `cost_tracker.py` and
`tracked_llm.py` are shallowly embedded below.  Conventions used
throughout the embedding:

* Python `str` is Lean `String`; the Python string primitives used by the
  source (`strip`, `lower`, `replace`, `split`, `startswith`, `in`,
  slicing, `len`) are modelled explicitly on `List Char`.
* Python `float` quantities (costs, budgets, usage ratios) are modelled as
  exact rationals `ℚ`; IEEE rounding noise is abstracted away.
* Timestamps are an abstract integer time line `ℤ` (the source stores
  `datetime.isoformat()` strings, whose lexicographic order agrees with
  chronological order, and compares them in SQL).
* The SQLite tables are modelled as Lean lists of rows kept in rowid
  (insertion) order; `fetchone` on a `SELECT` without `ORDER BY` is the
  first matching row of the list, and `INSERT OR REPLACE` on a column with
  a `UNIQUE` constraint deletes the conflicting row and appends the new
  one.
* A call that may raise is a function into `Except String α`; an
  underlying SQLite failure is modelled by a `storageFault : Bool`
  parameter on the operations that talk to the database.
-/

/-! ## Python string primitives -/

/-- Whitespace characters stripped by Python `str.strip()` with no
arguments: space, tab, newline, carriage return, vertical tab, form
feed. -/
def pyIsSpace (c : Char) : Bool :=
  c = ' ' || c = '\t' || c = '\n' || c = '\r' || c = Char.ofNat 11 || c = Char.ofNat 12

/-- Python `str.strip()`: drop leading and trailing whitespace. -/
def pyStrip (s : String) : String :=
  String.mk (((s.toList.dropWhile pyIsSpace).reverse.dropWhile pyIsSpace).reverse)

/-- Python `str.lower()` on the ASCII inputs used by this repository
(agent names, prompt patterns); modelled with `Char.toLower`. -/
def pyLower (s : String) : String :=
  String.mk (s.toList.map Char.toLower)

/-- Python slicing `s[:n]` for `n ≥ 0`. -/
def pySlice (n : ℕ) (s : String) : String :=
  String.mk (s.toList.take n)

/-- One pass of Python `str.replace`: scan left to right, replacing each
leftmost non-overlapping occurrence of the (non-empty) pattern
`pat = p :: ps` by `repl`.  The `fuel` argument only makes the recursion
structural: every step consumes at least one character of the subject, so
any `fuel ≥` the subject's length gives the untruncated result
(`pyReplace` below always passes the subject's length). -/
def replaceAux (pat repl : List Char) : ℕ → List Char → List Char
  | _, [] => []
  | 0, s => s
  | fuel + 1, c :: rest =>
    if pat.isPrefixOf (c :: rest) then
      repl ++ replaceAux pat repl fuel (rest.drop (pat.length - 1))
    else
      c :: replaceAux pat repl fuel rest

/-- Python `s.replace(pat, repl)`.  Every pattern appearing in the source
is non-empty; for an empty pattern we return `s` unchanged. -/
def pyReplace (s pat repl : String) : String :=
  match pat.toList with
  | [] => s
  | p :: ps => String.mk (replaceAux (p :: ps) repl.toList s.toList.length s.toList)

/-- Python substring containment `needle in hay` on character lists. -/
def listContainsSub (needle : List Char) : List Char → Bool
  | [] => needle.isEmpty
  | c :: rest => needle.isPrefixOf (c :: rest) || listContainsSub needle rest

/-- Python `needle in hay` for strings. -/
def pyContains (hay needle : String) : Bool :=
  listContainsSub needle.toList hay.toList

/-- Helper for Python `len(str.split())`: count maximal runs of
non-whitespace characters; the Boolean records whether the scan is
currently inside a word. -/
def countWordsAux : Bool → List Char → ℕ
  | _, [] => 0
  | inw, c :: rest =>
    if pyIsSpace c then countWordsAux false rest
    else (if inw then 0 else 1) + countWordsAux true rest

/-- Python `len(text.split())`: the number of whitespace-separated words. -/
def countWords (s : String) : ℕ :=
  countWordsAux false s.toList

/-- Python `s.startswith(pre)`. -/
def pyStartswith (s pre : String) : Bool :=
  pre.toList.isPrefixOf s.toList

/-- Helper for Python `s.split(sep)` with a one-character separator: the
accumulator holds the current field reversed. -/
def splitLinesAux (sep : Char) : List Char → List Char → List String
  | acc, [] => [String.mk acc.reverse]
  | acc, c :: rest =>
    if c = sep then String.mk acc.reverse :: splitLinesAux sep [] rest
    else splitLinesAux sep (c :: acc) rest

/-- Python `s.split(sep)` for a one-character separator (the source only
splits on a newline). -/
def pySplit (s : String) (sep : Char) : List String :=
  splitLinesAux sep [] s.toList

/-- Python `sep.join(parts)` for the newline separator used by the source. -/
def pyJoinLines : List String → String
  | [] => ""
  | [l] => l
  | l :: rest => l ++ "\n" ++ pyJoinLines rest

/-! ## PromptOptimizer (`cost_optimizer.py`, class `PromptOptimizer`)

The `optimization_rules` dict of the source enables `remove_redundancy`,
`compress_examples` and `optimize_structure` and disables
`reduce_verbosity`, so `optimize_prompt` applies exactly the three passes
below, in order. -/

/-- The `redundant_patterns` table of
`PromptOptimizer._remove_redundant_phrases`. -/
def redundant_patterns : List (String × String) :=
  [("comprehensive and detailed", "comprehensive"),
   ("analyze and examine", "analyze"),
   ("identify and find", "identify"),
   ("research and investigate", "research"),
   ("please make sure to", "ensure"),
   ("it is important to", ""),
   ("you should focus on", "focus on")]

/-- `PromptOptimizer._remove_redundant_phrases`: apply the pattern table
in order with `str.replace`. -/
def remove_redundant_phrases (prompt : String) : String :=
  redundant_patterns.foldl (fun result pr => pyReplace result pr.1 pr.2) prompt

/-- The per-line body of `PromptOptimizer._compress_examples`: a line is
rewritten when, stripped, it starts with a bullet and its lowercase form
contains the substring marking an example. -/
def compressLine (line : String) : String :=
  if pyStartswith (pyStrip line) "- " && pyContains (pyLower line) "example:" then
    pyReplace (pyReplace line "For example:" "e.g.") "Such as:" "e.g."
  else line

/-- `PromptOptimizer._compress_examples`: split on newlines, compress each
line, re-join. -/
def compress_examples (prompt : String) : String :=
  pyJoinLines ((pySplit prompt '\n').map compressLine)

/-- `PromptOptimizer._optimize_structure`: context-specific substitutions
keyed by substring match on the lowercased agent context. -/
def optimize_structure (prompt agent_context : String) : String :=
  let ctx := pyLower agent_context
  if pyContains ctx "coordinator" then
    pyReplace (pyReplace prompt "detailed analysis" "strategic analysis")
      "comprehensive review" "focused review"
  else if pyContains ctx "searcher" then
    pyReplace (pyReplace prompt "find all possible" "find key")
      "exhaustive search" "targeted search"
  else if pyContains ctx "analyzer" then
    pyReplace prompt "list everything" "synthesize key points"
  else prompt

/-- `PromptOptimizer.optimize_prompt`: the three enabled passes in order,
returning the optimized text and `max(0, (len(original) - len(optimized)) // 4)`
claimed tokens saved (the Python `max(0, ·)` is the truncation built into
`ℕ` subtraction). -/
def optimize_prompt (prompt : String) (agent_context : String := "") : String × ℕ :=
  let original_length := prompt.length
  let optimized := remove_redundant_phrases prompt
  let optimized := compress_examples optimized
  let optimized := optimize_structure optimized agent_context
  (optimized, (original_length - optimized.length) / 4)

/-! ## QueryCache (`cost_optimizer.py`, class `QueryCache`)

The `query_cache` SQLite table is a list of `CacheRow`s in rowid order.
The `query_hash` column carries a `UNIQUE` constraint, so
`INSERT OR REPLACE` removes any row with the same hash and appends the
new row.  The MD5 fingerprint of the source is modelled as the identity
on the cache-key string `agent_name ++ ":" ++ query.strip().lower()`
(i.e. the hash is treated as injective on its key). -/

/-- One row of the `query_cache` table. -/
structure CacheRow where
  query_hash : String
  query_text : String
  response : String
  agent_name : String
  timestamp : ℤ
  cost_saved : ℚ
  input_tokens : ℕ
  output_tokens : ℕ
  hit_count : ℕ
deriving Repr, DecidableEq

/-- `QueryCache._generate_query_hash`: the cache key
`f"{agent_name}:{query.strip().lower()}"`, with the MD5 digest modelled as
the identity on this key string. -/
def generate_query_hash (query agent_name : String) : String :=
  agent_name ++ ":" ++ pyLower (pyStrip query)

/-- The `WHERE query_hash = ? AND timestamp > ? AND agent_name = ?` filter
of `QueryCache.get_cached_response`. -/
def rowMatches (h : String) (cutoff : ℤ) (agent_name : String) (row : CacheRow) : Bool :=
  row.query_hash = h && row.timestamp > cutoff && row.agent_name = agent_name

/-- The row update of the hit branch of `get_cached_response`
(`UPDATE query_cache SET hit_count = hit_count + 1 WHERE query_hash = ?
AND agent_name = ?`). -/
def bump_hit (query_hash agent_name : String) (r : CacheRow) : CacheRow :=
  if r.query_hash = query_hash && r.agent_name = agent_name then
    { r with hit_count := r.hit_count + 1 }
  else r

/-- `QueryCache.get_cached_response`: returns the first live row for the
fingerprint and actor, bumping `hit_count` on a hit; `None` and an
unchanged table otherwise.  `cache_duration` is the freshness horizon
(`timedelta(hours=cache_duration_hours)`), `now` the current time. -/
def get_cached_response (query agent_name : String) (now cache_duration : ℤ)
    (tbl : List CacheRow) : Option String × List CacheRow :=
  let query_hash := generate_query_hash query agent_name
  let cutoff := now - cache_duration
  match tbl.find? (rowMatches query_hash cutoff agent_name) with
  | some row => (some row.response, tbl.map (bump_hit query_hash agent_name))
  | none => (none, tbl)

/-- `QueryCache.cache_response`: build a `CacheEntry` (query text truncated
to 500 characters, `hit_count` starting at 1) and `INSERT OR REPLACE` it:
any row with the same `query_hash` is removed and the new row appended. -/
def cache_response (query response agent_name : String)
    (input_tokens output_tokens : ℕ) (cost : ℚ) (now : ℤ)
    (tbl : List CacheRow) : List CacheRow :=
  let query_hash := generate_query_hash query agent_name
  let row : CacheRow :=
    { query_hash := query_hash
      query_text := pySlice 500 query
      response := response
      agent_name := agent_name
      timestamp := now
      cost_saved := cost
      input_tokens := input_tokens
      output_tokens := output_tokens
      hit_count := 1 }
  tbl.filter (fun r => r.query_hash ≠ query_hash) ++ [row]

/-- The fields of `QueryCache.get_cache_stats` used by this development. -/
structure CacheStats where
  total_entries : ℕ
  total_cost_saved : ℚ
  recent_entries : ℕ
deriving Repr, DecidableEq

/-- `QueryCache.get_cache_stats`: `total_entries` is `COUNT(*)`,
`total_cost_saved` is `SUM(cost_saved * hit_count)` (with `NULL` read as
0 on an empty table), and `recent_entries` counts rows of the last 24
hours (modelled as 86400 time units). -/
def get_cache_stats (now : ℤ) (tbl : List CacheRow) : CacheStats :=
  { total_entries := tbl.length
    total_cost_saved := (tbl.map fun r => r.cost_saved * (r.hit_count : ℚ)).sum
    recent_entries := (tbl.filter fun r => r.timestamp > now - 86400).length }

/-- The per-agent `saved` aggregate of the same `get_cache_stats` query:
`SUM(cost_saved * (hit_count - 1))` over rows of the agent with
`hit_count > 1`. -/
def agent_stats_saved (agent_name : String) (tbl : List CacheRow) : ℚ :=
  ((tbl.filter fun r => r.agent_name = agent_name && r.hit_count > 1).map
    fun r => r.cost_saved * ((r.hit_count : ℚ) - 1)).sum

/-- Modelled from the spec (§4.4): the `total_cost_saved` formula the spec
states, `(hit_count − 1) × cost_saved` summed per entry, counting only
reuse events. -/
def total_cost_saved_spec (tbl : List CacheRow) : ℚ :=
  (tbl.map fun r => r.cost_saved * ((r.hit_count : ℚ) - 1)).sum

/-! ## CostBudgetManager (`cost_optimizer.py`, class `CostBudgetManager`) -/

/-- The warning threshold (70% of budget). -/
def warning_threshold : ℚ := 7/10

/-- The critical threshold (90% of budget). -/
def critical_threshold : ℚ := 9/10

/-- The rotating `optimization_tips` table. -/
def optimization_tips : List String :=
  ["Consider using cached results for similar queries",
   "Try more specific prompts to reduce token usage",
   "Break large research tasks into smaller, focused queries",
   "Use agent-specific optimized prompts",
   "Enable prompt optimization to reduce redundancy"]

/-- The result dict of `CostBudgetManager.check_budget_status`. -/
structure BudgetStatus where
  session : String
  daily : String
  session_usage_percent : ℚ
  daily_usage_percent : ℚ
  recommendations : List String
  should_continue : Bool
deriving Repr, DecidableEq

/-- `CostBudgetManager._get_usage_status`. -/
def get_usage_status (usage_percent : ℚ) : String :=
  if usage_percent ≥ 1 then "EXCEEDED"
  else if usage_percent ≥ critical_threshold then "CRITICAL"
  else if usage_percent ≥ warning_threshold then "WARNING"
  else if usage_percent ≥ 3/10 then "MODERATE"
  else "LOW"

/-- `CostBudgetManager.check_budget_status`, as a function of the cost
summary it reads (session cost and budget, daily cost and budget).  The
rotating tip index `hash(str(date)) % 5` depends on Python's randomized
string hash, so it is a parameter `tip_index`.  `should_continue` starts
`True` and is set `False` exactly in the session-critical branch
(`session_usage > critical_threshold`, strictly). -/
def check_budget_status (session_cost session_budget daily_cost daily_budget : ℚ)
    (tip_index : ℕ) : BudgetStatus :=
  let session_usage := if session_budget > 0 then session_cost / session_budget else 0
  let daily_usage := if daily_budget > 0 then daily_cost / daily_budget else 0
  let session_recs : List String × Bool :=
    if session_usage > critical_threshold then
      (["Session budget critically low - consider ending session",
        "Use the cost command to see detailed breakdown"], false)
    else if session_usage > warning_threshold then
      (["Session budget approaching limit",
        "Consider enabling caching for remaining queries"], true)
    else ([], true)
  let daily_recs : List String :=
    if daily_usage > critical_threshold then
      ["Daily budget critically low", "Focus on essential queries only"]
    else if daily_usage > warning_threshold then
      ["Daily budget approaching limit", "Consider prompt optimization"]
    else []
  let tip_recs : List String :=
    if 3/10 < max session_usage daily_usage ∧ max session_usage daily_usage < 7/10 then
      [optimization_tips.getD (tip_index % optimization_tips.length) ""]
    else []
  { session := get_usage_status session_usage
    daily := get_usage_status daily_usage
    session_usage_percent := session_usage * 100
    daily_usage_percent := daily_usage * 100
    recommendations := session_recs.1 ++ daily_recs ++ tip_recs
    should_continue := session_recs.2 }

/-- The result dict of `CostBudgetManager.get_cost_prediction`. -/
structure CostPrediction where
  estimated_cost : ℚ
  estimated_input_tokens : ℕ
  estimated_output_tokens : ℕ
  confidence : String
deriving Repr, DecidableEq

/-- `CostBudgetManager.get_cost_prediction`: `agent_costs` is the
trailing-week aggregate returned by `CostTracker.get_agent_costs(168)`,
modelled as the association list of the dict.  Input tokens are
`len(query) // 4`; the cost formula assumes a 2:1 output ratio when the
agent has a strictly positive aggregate and a 1.5:1 ratio otherwise; the
returned `estimated_output_tokens` is always `int(query_tokens * 1.5)`,
and `confidence` tests dict membership only. -/
def get_cost_prediction (query agent_name : String)
    (agent_costs : List (String × ℚ)) : CostPrediction :=
  let query_tokens : ℕ := query.length / 4
  let predicted_cost : ℚ :=
    if (agent_costs.lookup agent_name).getD 0 > 0 then
      (query_tokens : ℚ) * (3/1000) / 1000 + (query_tokens : ℚ) * 2 * (15/1000) / 1000
    else
      (query_tokens : ℚ) * (3/1000) / 1000 + (query_tokens : ℚ) * (3/2) * (15/1000) / 1000
  { estimated_cost := predicted_cost
    estimated_input_tokens := query_tokens
    estimated_output_tokens := 3 * query_tokens / 2
    confidence := if (agent_costs.lookup agent_name).isSome then "medium" else "low" }

/-! ## CostTracker (`cost_tracker.py`, class `CostTracker`)

The `cost_events` SQLite table is a list of `CostEvent`s in rowid order.
`CostTracker._store_event` performs a plain `INSERT` with no exception
handling, so a failure of the underlying storage engine — modelled by the
`storageFault` flag — propagates to the caller of `track_api_call`. -/

/-- One row of the `cost_events` table (the dataclass `CostEvent`). -/
structure CostEvent where
  timestamp : ℤ
  agent_name : String
  session_id : String
  model : String
  input_tokens : ℕ
  output_tokens : ℕ
  cost_usd : ℚ
  task_description : String
deriving Repr, DecidableEq

/-- The `MODEL_PRICING` table: per-1K input and output rates. -/
def MODEL_PRICING : List (String × ℚ × ℚ) :=
  [("anthropic/claude-sonnet-4-20250514", (3/1000, 15/1000)),
   ("anthropic/claude-3-sonnet-20240229", (3/1000, 15/1000))]

/-- Python `round(x, 6)` on the exact rational model of the cost (nearest
representable 6-decimal value; the float tie-breaking of the source is
abstracted away, and no priced value in this development sits on a tie). -/
def round6 (q : ℚ) : ℚ :=
  (round (q * 1000000) : ℚ) / 1000000

/-- `CostTracker.calculate_cost`: look the model up in `MODEL_PRICING`,
falling back to the default model's rates when unknown, and price
`input/1000 × input_rate + output/1000 × output_rate` rounded to six
decimals. -/
def calculate_cost (model : String) (input_tokens output_tokens : ℕ) : ℚ :=
  let pricing := (MODEL_PRICING.lookup model).getD (3/1000, 15/1000)
  round6 ((input_tokens : ℚ) / 1000 * pricing.1 + (output_tokens : ℚ) / 1000 * pricing.2)

/-- `CostTracker._store_event`: append the event to the durable store.
The source wraps no exception handler around the SQL `INSERT`, so a
storage-engine failure (`storageFault = true`) raises. -/
def store_event (storageFault : Bool) (event : CostEvent)
    (events : List CostEvent) : Except String (List CostEvent) :=
  if storageFault then .error "storage error"
  else .ok (events ++ [event])

/-- `CostTracker.track_api_call`: price the call, build the `CostEvent`,
store it (`_store_event`, whose storage errors propagate — there is no
`try`/`except` in the source), and return the event.  The
`_check_budget_alerts` step only logs and prints, so it is not modelled. -/
def track_api_call (storageFault : Bool) (agent_name model : String)
    (input_tokens output_tokens : ℕ) (task_description : String)
    (now : ℤ) (session_id : String) (events : List CostEvent) :
    Except String (CostEvent × List CostEvent) :=
  let cost := calculate_cost model input_tokens output_tokens
  let event : CostEvent :=
    { timestamp := now
      agent_name := agent_name
      session_id := session_id
      model := model
      input_tokens := input_tokens
      output_tokens := output_tokens
      cost_usd := cost
      task_description := task_description }
  match store_event storageFault event events with
  | .error e => .error e
  | .ok events2 => .ok (event, events2)

/-! ## optimize_cost decorator (`cost_optimizer.py`, function `optimize_cost`)

The wrapper consults `check_budget_status` before running the wrapped
function; on `should_continue = False` it returns the cancellation
sentinel without calling the function.  The wrapped function is modelled
as a transformer of the durable event store that either returns a result
or raises; the wrapper's `except` clause logs and re-raises, i.e. passes
the error through. -/

/-- The sentinel returned when the budget gate denies the call. -/
def budget_cancel_sentinel : String := "Operation cancelled due to budget constraints."

/-- The `wrapper` closure produced by the `optimize_cost` decorator,
applied to budget inputs, the wrapped function `func`, and the current
event store. -/
def optimize_cost_wrapper (session_cost session_budget daily_cost daily_budget : ℚ)
    (tip_index : ℕ)
    (func : List CostEvent → Except String String × List CostEvent)
    (events : List CostEvent) : Except String String × List CostEvent :=
  let budget_status := check_budget_status session_cost session_budget daily_cost daily_budget tip_index
  if budget_status.should_continue = false then
    (.ok budget_cancel_sentinel, events)
  else
    func events

/-! ## TrackedLLM (`tracked_llm.py`, class `TrackedLLM`) -/

/-- `TrackedLLM._estimate_tokens`: 0 for empty text, otherwise
`max(max(1, int(len/3.2)), word_count)`; `int(len/3.2)` is the exact
rational truncation `⌊5·len/16⌋`. -/
def estimate_tokens (text : String) : ℕ :=
  if text = "" then 0
  else max (max 1 (5 * text.length / 16)) (countWords text)

/-- The `input_text` accumulation of `TrackedLLM.call`: the concatenation
of each message's content followed by a space.  A message is modelled by
its `content` string (messages without a `content` key contribute nothing
and pass through untouched in the source). -/
def concatContents (messages : List String) : String :=
  messages.foldl (fun acc m => acc ++ m ++ " ") ""

/-- The prompt-optimization loop of `TrackedLLM.call`: optimize every
message content with the current agent name as context, accumulating the
claimed token savings. -/
def optimize_messages (current_agent : String) (messages : List String) :
    List String × ℕ :=
  messages.foldl
    (fun acc m =>
      let om := optimize_prompt m current_agent
      (acc.1 ++ [om.1], acc.2 + om.2))
    ([], 0)

/-- The mutable state visible to one `TrackedLLM.call`: the cache table
and the durable cost-event store. -/
structure CallState where
  cacheTbl : List CacheRow
  events : List CostEvent
deriving Repr, DecidableEq

/-- The body of `TrackedLLM.call` after the cache check (the `try` block
and its `except` clause).  `dispatch` is the outcome of the external
`self.llm.call` (a response string, or a raised error); `parsed_usage` is
the result of `_parse_response_usage` on that response (the source probes
several duck-typed shapes; per the spec's own design note it is a
strategy returning `Option`).  On a dispatch error the `except` clause
records a zero-output event tagged `"FAILED: "` and re-raises the
original error; a storage error from either `track_api_call` escapes the
`try` block, lands in the same `except` clause, and its own recording
attempt fails again, so the storage error propagates. -/
def call_after_cache (enable_caching : Bool) (enable_prompt_optimization : Bool)
    (current_agent current_task model session_id : String)
    (storageFault : Bool) (dispatch : Except String String)
    (parsed_usage : Option (ℕ × ℕ)) (messages : List String) (now : ℤ)
    (cacheTbl : List CacheRow) (events : List CostEvent) :
    Except String String × CallState :=
  let input_text := concatContents messages
  let optimized_messages :=
    if enable_prompt_optimization then (optimize_messages current_agent messages).1
    else messages
  let optimized_input_text := concatContents optimized_messages
  let estimated_input_tokens := estimate_tokens optimized_input_text
  match dispatch with
  | .error e =>
    match track_api_call storageFault current_agent model estimated_input_tokens 0
        ("FAILED: " ++ current_task) now session_id events with
    | .ok r => (.error e, ⟨cacheTbl, r.2⟩)
    | .error e2 => (.error e2, ⟨cacheTbl, events⟩)
  | .ok response =>
    let usage :=
      match parsed_usage with
      | some u => u
      | none => (estimated_input_tokens, estimate_tokens response)
    let cost := calculate_cost model usage.1 usage.2
    let cacheTbl2 :=
      if enable_caching then
        cache_response input_text response current_agent usage.1 usage.2 cost now cacheTbl
      else cacheTbl
    match track_api_call storageFault current_agent model usage.1 usage.2
        current_task now session_id events with
    | .ok r => (.ok response, ⟨cacheTbl2, r.2⟩)
    | .error est =>
      match track_api_call storageFault current_agent model estimated_input_tokens 0
          ("FAILED: " ++ current_task) now session_id events with
      | .ok r2 => (.error est, ⟨cacheTbl2, r2.2⟩)
      | .error e3 => (.error e3, ⟨cacheTbl2, events⟩)

/-- `TrackedLLM.call`: check the cache first when caching is enabled
(returning the memoized response on a hit, with its hit count bumped and
no dispatch), then run the dispatch-and-record body. -/
def TrackedLLM.call (enable_caching : Bool) (enable_prompt_optimization : Bool)
    (current_agent current_task model session_id : String)
    (cache_duration : ℤ) (storageFault : Bool) (dispatch : Except String String)
    (parsed_usage : Option (ℕ × ℕ)) (messages : List String) (now : ℤ)
    (st : CallState) : Except String String × CallState :=
  let input_text := concatContents messages
  if enable_caching then
    let looked := get_cached_response input_text current_agent now cache_duration st.cacheTbl
    match looked.1 with
    | some cached => (.ok cached, ⟨looked.2, st.events⟩)
    | none =>
      call_after_cache enable_caching enable_prompt_optimization current_agent
        current_task model session_id storageFault dispatch parsed_usage messages now
        looked.2 st.events
  else
    call_after_cache enable_caching enable_prompt_optimization current_agent
      current_task model session_id storageFault dispatch parsed_usage messages now
      st.cacheTbl st.events

/-! ## Cache operation histories

The two operations a `QueryCache` table can undergo from the core
(`cache_response` stores and `get_cached_response` lookups), and the table
reached by running a history of them from the empty table. -/

/-- One operation on the cache table. -/
inductive CacheOp where
  | store (query response agent_name : String)
      (input_tokens output_tokens : ℕ) (cost : ℚ) (now : ℤ)
  | fetch (query agent_name : String) (now : ℤ)
deriving Repr, DecidableEq

/-- Apply one cache operation to a table (`dur` is the freshness horizon
used by lookups). -/
def apply_op (dur : ℤ) (tbl : List CacheRow) : CacheOp → List CacheRow
  | .store q r a it ot c t => cache_response q r a it ot c t tbl
  | .fetch q a t => (get_cached_response q a t dur tbl).2

/-- The table reached by running a history of operations from the empty
table. -/
def run_ops (dur : ℤ) (ops : List CacheOp) : List CacheRow :=
  ops.foldl (apply_op dur) []

/-- Apply a sequence of lookups (query, actor, time) to a table; stores do
not occur.  Used to state that intervening cache hits do not refresh an
entry. -/
def apply_lookups (dur : ℤ) : List (String × String × ℤ) → List CacheRow → List CacheRow
  | [], tbl => tbl
  | l :: rest, tbl => apply_lookups dur rest (get_cached_response l.1 l.2.1 l.2.2 dur tbl).2

/-! ## Claims: budget gate, storage failure, stats, prediction, compactor -/

/-- C1 (counterexample): with the session budget exactly 90% consumed
(cost 9/10 against limit 1) the session usage ratio is ≥ 0.9, yet
`check_budget_status` leaves `should_continue = true` — the gate trips
only strictly above the critical threshold, so the claimed "false iff
ratio ≥ 0.9" fails at this input. -/
theorem c1_counterexample :
    ¬ (((check_budget_status (9/10) 1 0 1 0).should_continue = false) ↔
        ((9/10 : ℚ) / 1 ≥ 9/10)) := by
  intro hc
  have h2 : (check_budget_status (9/10) 1 0 1 0).should_continue = false :=
    hc.mpr (by norm_num)
  have hsc : (check_budget_status (9/10) 1 0 1 0).should_continue = true := by
    norm_num [check_budget_status, critical_threshold, warning_threshold]
  rw [hsc] at h2
  exact Bool.noConfusion h2

/-- C1 (amended): `should_continue` is false iff the session usage ratio
is strictly greater than 0.9; the ratio is taken as 0 when the
corresponding limit is ≤ 0; the daily ratio never influences
`should_continue`. -/
theorem c1_budget_gate (session_cost session_budget daily_cost daily_budget : ℚ)
    (tip_index : ℕ) :
    ((check_budget_status session_cost session_budget daily_cost daily_budget
        tip_index).should_continue = false ↔
      (if session_budget > 0 then session_cost / session_budget else 0) > 9/10) ∧
    (check_budget_status session_cost session_budget daily_cost daily_budget
        tip_index).session_usage_percent =
      (if session_budget > 0 then session_cost / session_budget else 0) * 100 ∧
    (check_budget_status session_cost session_budget daily_cost daily_budget
        tip_index).daily_usage_percent =
      (if daily_budget > 0 then daily_cost / daily_budget else 0) * 100 := by
  refine ⟨?_, rfl, rfl⟩
  unfold check_budget_status critical_threshold warning_threshold
  dsimp only
  split_ifs with h h2 <;> simp_all

/-- C2 (code evaluation at the failing input): when the storage engine
underneath `_store_event` fails, `track_api_call` raises the storage
error instead of returning normally, and through `TrackedLLM.call` the
same storage error propagates to the caller, replacing the already
successful external result. -/
theorem c2_storage_error_propagates :
    track_api_call true "research_coordinator" "anthropic/claude-sonnet-4-20250514"
        100 50 "survey task" 0 "session_1" [] = .error "storage error" ∧
    (TrackedLLM.call false false "research_coordinator" "survey task"
        "anthropic/claude-sonnet-4-20250514" "session_1" 86400 true
        (.ok "the successful response") (some (100, 50)) ["query"] 0
        ⟨[], []⟩).1 = .error "storage error" := by
  constructor <;> rfl

/-- C3 (code evaluation at the failing input): a cache holding a single
live entry that was stored once and never reused (`hit_count = 1`,
`cost_saved = 2`) reports `total_cost_saved = 2` — the code sums
`cost_saved * hit_count`, counting the first store — while the spec's
reuse-only formula `(hit_count − 1) × cost_saved` gives 0. -/
theorem c3_first_store_counted :
    (get_cache_stats 0
        [{ query_hash := "alice:q", query_text := "q", response := "r",
           agent_name := "alice", timestamp := 0, cost_saved := 2,
           input_tokens := 10, output_tokens := 20, hit_count := 1 }]).total_cost_saved
      = 2 ∧
    total_cost_saved_spec
        [{ query_hash := "alice:q", query_text := "q", response := "r",
           agent_name := "alice", timestamp := 0, cost_saved := 2,
           input_tokens := 10, output_tokens := 20, hit_count := 1 }] = 0 := by
  constructor <;> norm_num [get_cache_stats, total_cost_saved_spec]

/-- C5: whenever the budget check yields `should_continue = false`, the
`optimize_cost` wrapper returns the cancellation sentinel with the event
store untouched, for every wrapped function — the wrapped call is never
invoked and no `UsageEvent` is appended. -/
theorem c5_budget_deny_short_circuit
    (session_cost session_budget daily_cost daily_budget : ℚ) (tip_index : ℕ)
    (func : List CostEvent → Except String String × List CostEvent)
    (events : List CostEvent)
    (h : (check_budget_status session_cost session_budget daily_cost daily_budget
        tip_index).should_continue = false) :
    optimize_cost_wrapper session_cost session_budget daily_cost daily_budget
        tip_index func events = (.ok budget_cancel_sentinel, events) := by
  simp [optimize_cost_wrapper, h]

/-- C5 (witness): with the session budget fully consumed the wrapper
cancels, even though the wrapped function would have returned a fresh
result and appended an event. -/
theorem c5_witness :
    optimize_cost_wrapper 1 1 0 1 0
        (fun evs => (.ok "fresh result", evs ++ [⟨0, "a", "s", "m", 1, 1, 1, "t"⟩]))
        [] = (.ok budget_cancel_sentinel, []) :=
  c5_budget_deny_short_circuit 1 1 0 1 0 _ []
    (by norm_num [check_budget_status, critical_threshold, warning_threshold])

/-- C6 (counterexample): for the actor `"alice"` with a non-zero
trailing-week aggregate and an 8-character query, the prediction's
estimated output units are `int(2 × 1.5) = 3`, not equal to the 2
estimated input units as the claim requires. -/
theorem c6_counterexample :
    ¬ ((get_cost_prediction "12345678" "alice" [("alice", 1)]).estimated_output_tokens
        = (get_cost_prediction "12345678" "alice" [("alice", 1)]).estimated_input_tokens) := by
  decide

/-- C6 (amended): the prediction estimates input units as
`len(query) // 4` and output units as `int(1.5 × input)` in every case;
confidence is `"medium"` iff the actor merely appears in the
trailing-week aggregate (with any value, zero included), else `"low"`. -/
theorem c6_prediction (query agent_name : String)
    (agent_costs : List (String × ℚ)) :
    (get_cost_prediction query agent_name agent_costs).estimated_input_tokens
      = query.length / 4 ∧
    (get_cost_prediction query agent_name agent_costs).estimated_output_tokens
      = 3 * (query.length / 4) / 2 ∧
    ((get_cost_prediction query agent_name agent_costs).confidence = "medium" ↔
      (agent_costs.lookup agent_name).isSome = true) := by
  refine ⟨rfl, rfl, ?_⟩
  unfold get_cost_prediction
  dsimp only
  cases h : agent_costs.lookup agent_name <;> simp [h]

/-- C9 (code evaluation at the failing input): the compactor is not
idempotent — on `"analyze and examine and examine"` the first pass yields
`("analyze and examine", 3)`, and re-applying to that output yields
`("analyze", 3)`, a further change with a further claimed saving instead
of the required `("analyze and examine", 0)`. -/
theorem c9_not_idempotent :
    optimize_prompt "analyze and examine and examine" "" = ("analyze and examine", 3) ∧
    optimize_prompt "analyze and examine" "" = ("analyze", 3) := by
  constructor <;> decide

/-! ## Claims: fingerprint separation -/

/-- `takeWhile` over an append stops exactly at the first element
falsifying the predicate. -/
theorem takeWhile_append_stop (p : Char → Bool) (l1 l2 : List Char) (x : Char)
    (h : ∀ c ∈ l1, p c = true) (hx : p x = false) :
    (l1 ++ x :: l2).takeWhile p = l1 := by
  induction l1 with
  | nil => simp [List.takeWhile_cons, hx]
  | cons c cs ih =>
    simp [List.takeWhile_cons, h c (List.mem_cons_self c cs),
      ih fun d hd => h d (List.mem_cons_of_mem c hd)]

/-- The character list of a cache key splits as the actor's characters,
a colon, and the normalized query's characters. -/
theorem generate_query_hash_data (q a : String) :
    (generate_query_hash q a).data = a.data ++ ':' :: (pyLower (pyStrip q)).data := by
  simp [generate_query_hash, String.data_append]

/-- C8 (counterexample): actor names may themselves contain the colon
separator, so two distinct actors can produce the same cache-key string:
actor `"a"` with query `"b:x"` and actor `"a:b"` with query `"x"` share
the key `"a:b:x"`. -/
theorem c8_counterexample :
    generate_query_hash "b:x" "a" = generate_query_hash "x" "a:b" ∧ "a" ≠ "a:b" := by
  constructor <;> decide

/-- C8 (amended): for two distinct actor names neither of which contains
a colon, the cache-key strings differ for all query texts — actor
identity is recoverable as the longest colon-free prefix of the key. -/
theorem c8_actor_key_separation (a1 a2 q1 q2 : String) (hne : a1 ≠ a2)
    (h1 : ':' ∉ a1.data) (h2 : ':' ∉ a2.data) :
    generate_query_hash q1 a1 ≠ generate_query_hash q2 a2 := by
  intro heq
  apply hne
  have hd : a1.data ++ ':' :: (pyLower (pyStrip q1)).data
      = a2.data ++ ':' :: (pyLower (pyStrip q2)).data := by
    rw [← generate_query_hash_data, ← generate_query_hash_data, heq]
  have t1 : (a1.data ++ ':' :: (pyLower (pyStrip q1)).data).takeWhile
      (fun c => !(c == ':')) = a1.data :=
    takeWhile_append_stop _ _ _ _
      (fun c hc => by
        simp only [Bool.not_eq_true', beq_eq_false_iff_ne, ne_eq]
        exact fun hcolon => h1 (hcolon ▸ hc))
      (by simp)
  have t2 : (a2.data ++ ':' :: (pyLower (pyStrip q2)).data).takeWhile
      (fun c => !(c == ':')) = a2.data :=
    takeWhile_append_stop _ _ _ _
      (fun c hc => by
        simp only [Bool.not_eq_true', beq_eq_false_iff_ne, ne_eq]
        exact fun hcolon => h2 (hcolon ▸ hc))
      (by simp)
  exact String.ext (t1 ▸ t2 ▸ hd ▸ rfl)

/-- C8 (witness): two concrete colon-free distinct actors generate
distinct keys. -/
theorem c8_witness : generate_query_hash "q" "alice" ≠ generate_query_hash "q" "bob" :=
  c8_actor_key_separation "alice" "bob" "q" "q" (by decide) (by decide) (by decide)

/-! ## Claims: cache expiry

The invariant carried across intervening lookups: after a store of
fingerprint `qh` the table is some rows of other fingerprints followed by
the stored row, and lookups preserve every row's fingerprint, actor,
response and creation timestamp (they only bump hit counters). -/

/-- The shape of a table after `cache_response` stored fingerprint `qh`
for actor `a` with response `r` at time `T0`: rows of other fingerprints,
then the stored row, whose identifying fields lookups never change. -/
def entry_invariant (qh a r : String) (T0 : ℤ) (tbl : List CacheRow) : Prop :=
  ∃ front rear, tbl = front ++ [rear] ∧ (∀ x ∈ front, x.query_hash ≠ qh) ∧
    rear.query_hash = qh ∧ rear.agent_name = a ∧ rear.response = r ∧
    rear.timestamp = T0

/-- Storing establishes the invariant for the stored entry. -/
theorem entry_invariant_store (q r a : String) (it ot : ℕ) (c : ℚ) (T0 : ℤ)
    (tbl : List CacheRow) :
    entry_invariant (generate_query_hash q a) a r T0
      (cache_response q r a it ot c T0 tbl) := by
  refine ⟨tbl.filter (fun x => x.query_hash ≠ generate_query_hash q a), _,
    rfl, ?_, rfl, rfl, rfl, rfl⟩
  intro x hx
  simpa using (List.mem_filter.mp hx).2

/-- `bump_hit` never changes a row's fingerprint, actor, response or
creation timestamp — only its hit counter. -/
theorem bump_hit_shadow (qh a' : String) (x : CacheRow) :
    (bump_hit qh a' x).query_hash = x.query_hash ∧
    (bump_hit qh a' x).agent_name = x.agent_name ∧
    (bump_hit qh a' x).response = x.response ∧
    (bump_hit qh a' x).timestamp = x.timestamp := by
  unfold bump_hit
  split <;> exact ⟨rfl, rfl, rfl, rfl⟩

/-- The table left behind by a lookup is the original table or the
original table with hit counters bumped. -/
theorem get_cached_response_snd (q' a' : String) (t' dur : ℤ)
    (tbl : List CacheRow) :
    (get_cached_response q' a' t' dur tbl).2 = tbl ∨
    (get_cached_response q' a' t' dur tbl).2
      = tbl.map (bump_hit (generate_query_hash q' a') a') := by
  cases hfind : tbl.find? (rowMatches (generate_query_hash q' a') (t' - dur) a') with
  | none => exact .inl (by simp [get_cached_response, hfind])
  | some row => exact .inr (by simp [get_cached_response, hfind])

/-- One lookup (of any query, actor and time) preserves the invariant:
the table is either unchanged or hit counters are bumped, which touches
none of the identifying fields. -/
theorem entry_invariant_lookup (qh a r : String) (T0 : ℤ) (q' a' : String)
    (t' dur : ℤ) (tbl : List CacheRow)
    (hinv : entry_invariant qh a r T0 tbl) :
    entry_invariant qh a r T0 ((get_cached_response q' a' t' dur tbl).2) := by
  obtain ⟨front, rear, htbl, hfront, hqh, ha, hr, ht⟩ := hinv
  rcases get_cached_response_snd q' a' t' dur tbl with hsnd | hsnd <;> rw [hsnd]
  · exact ⟨front, rear, htbl, hfront, hqh, ha, hr, ht⟩
  · subst htbl
    obtain ⟨b1, b2, b3, b4⟩ :=
      bump_hit_shadow (generate_query_hash q' a') a' rear
    refine ⟨front.map (bump_hit (generate_query_hash q' a') a'),
      bump_hit (generate_query_hash q' a') a' rear, by simp, ?_,
      b1.trans hqh, b2.trans ha, b3.trans hr, b4.trans ht⟩
    intro x hx
    obtain ⟨y, hy, rfl⟩ := List.mem_map.mp hx
    rw [(bump_hit_shadow _ _ y).1]
    exact hfront y hy

/-- A whole sequence of lookups preserves the invariant. -/
theorem entry_invariant_lookups (qh a r : String) (T0 : ℤ) (dur : ℤ)
    (hits : List (String × String × ℤ)) (tbl : List CacheRow)
    (hinv : entry_invariant qh a r T0 tbl) :
    entry_invariant qh a r T0 (apply_lookups dur hits tbl) := by
  induction hits generalizing tbl with
  | nil => exact hinv
  | cons l rest ih =>
    exact ih _ (entry_invariant_lookup qh a r T0 l.1 l.2.1 l.2.2 dur tbl hinv)

/-- C7: an entry stored at time `T0` under freshness horizon `H` is
returned by a lookup of the same query and actor at every time strictly
before `T0 + H` and is absent at `T0 + H` and later, no matter how many
lookups (hits, of any query, actor and time) happened in between: hits
bump the hit counter but never refresh the stored creation timestamp. -/
theorem c7_cache_expiry (tbl : List CacheRow) (q r a : String) (it ot : ℕ)
    (c : ℚ) (T0 H now : ℤ) (hits : List (String × String × ℤ)) :
    (get_cached_response q a now H
        (apply_lookups H hits (cache_response q r a it ot c T0 tbl))).1
      = if now < T0 + H then some r else none := by
  obtain ⟨front, rear, htbl, hfront, hqh, ha, hr, ht⟩ :=
    entry_invariant_lookups (generate_query_hash q a) a r T0 H hits _
      (entry_invariant_store q r a it ot c T0 tbl)
  rw [htbl]
  unfold get_cached_response
  have hfr : front.find? (rowMatches (generate_query_hash q a) (now - H) a) = none :=
    List.find?_eq_none.mpr fun x hx => by simp [rowMatches, hfront x hx]
  by_cases hlt : now < T0 + H
  · have hT : T0 > now - H := by omega
    have hp : rowMatches (generate_query_hash q a) (now - H) a rear = true := by
      simp [rowMatches, hqh, ha, ht, hT]
    simp [List.find?_append, hfr, List.find?_cons, hp, hr, hlt]
  · have hT : ¬ (T0 > now - H) := by omega
    have hp : rowMatches (generate_query_hash q a) (now - H) a rear = false := by
      simp [rowMatches, ht, hT]
    simp [List.find?_append, hfr, List.find?_cons, hp, hlt]

/-! ## Claims: lookups never cross actors -/

/-- A row whose response and actor were put there by some store operation
of the history. -/
def row_from_store (ops : List CacheOp) (row : CacheRow) : Prop :=
  ∃ q it ot c t, CacheOp.store q row.response row.agent_name it ot c t ∈ ops

/-- Every row of a table after one operation either keeps the response
and actor of a row of the previous table, or carries exactly the response
and actor of the store operation just applied. -/
theorem mem_apply_op (dur : ℤ) (tbl : List CacheRow) (op : CacheOp)
    (row : CacheRow) (hm : row ∈ apply_op dur tbl op) :
    (∃ r0 ∈ tbl, r0.response = row.response ∧ r0.agent_name = row.agent_name) ∨
    (∃ q it ot c t, op = CacheOp.store q row.response row.agent_name it ot c t) := by
  cases op with
  | store q r a it ot c t =>
    rcases List.mem_append.mp hm with hf | hnew
    · exact .inl ⟨row, (List.mem_filter.mp hf).1, rfl, rfl⟩
    · obtain rfl : row = _ := List.mem_singleton.mp hnew
      exact .inr ⟨q, it, ot, c, t, rfl⟩
  | fetch q' a' t' =>
    rcases get_cached_response_snd q' a' t' dur tbl with hsnd | hsnd <;>
      rw [show apply_op dur tbl (CacheOp.fetch q' a' t')
            = (get_cached_response q' a' t' dur tbl).2 from rfl, hsnd] at hm
    · exact .inl ⟨row, hm, rfl, rfl⟩
    · obtain ⟨y, hy, rfl⟩ := List.mem_map.mp hm
      obtain ⟨-, b2, b3, -⟩ := bump_hit_shadow (generate_query_hash q' a') a' y
      exact .inl ⟨y, hy, b3.symm, b2.symm⟩

/-- Every row of the table reached by folding a history over a start
table either descends from the start table or from a store of the
history. -/
theorem mem_foldl_apply_op (dur : ℤ) (ops : List CacheOp) (tbl : List CacheRow)
    (row : CacheRow) (hm : row ∈ ops.foldl (apply_op dur) tbl) :
    (∃ r0 ∈ tbl, r0.response = row.response ∧ r0.agent_name = row.agent_name) ∨
    row_from_store ops row := by
  induction ops generalizing tbl with
  | nil => exact .inl ⟨row, hm, rfl, rfl⟩
  | cons op ops ih =>
    rcases ih (apply_op dur tbl op) hm with ⟨r0, hr0, hresp, hagent⟩ | hfs
    · rcases mem_apply_op dur tbl op r0 hr0 with ⟨r1, hr1, e1, e2⟩ | ⟨q, it, ot, c, t, heq⟩
      · exact .inl ⟨r1, hr1, e1.trans hresp, e2.trans hagent⟩
      · rw [hresp, hagent] at heq
        exact .inr ⟨q, it, ot, c, t, heq ▸ List.mem_cons_self op ops⟩
    · obtain ⟨q, it, ot, c, t, hmem⟩ := hfs
      exact .inr ⟨q, it, ot, c, t, List.mem_cons_of_mem op hmem⟩

/-- A successful lookup returns the response of a row of the table whose
`agent_name` column equals the requesting actor (the `SELECT` filters on
`agent_name` in addition to the fingerprint). -/
theorem get_cached_response_found (q a : String) (now dur : ℤ)
    (tbl : List CacheRow) (r : String)
    (h : (get_cached_response q a now dur tbl).1 = some r) :
    ∃ row ∈ tbl, row.agent_name = a ∧ row.response = r := by
  cases hfind : tbl.find? (rowMatches (generate_query_hash q a) (now - dur) a) with
  | none => simp [get_cached_response, hfind] at h
  | some row =>
    have hr : row.response = r := by simpa [get_cached_response, hfind] using h
    have hp := List.find?_some hfind
    simp only [rowMatches, Bool.and_eq_true, decide_eq_true_eq] at hp
    exact ⟨row, List.mem_of_find?_eq_some hfind, hp.2, hr⟩

/-- C10: over any history of stores and lookups starting from the empty
cache, a lookup by actor `a` that returns a response `r` only ever
returns a response some store operation recorded under `agent_name = a` —
the lookup can never serve another actor's entry, even when fingerprints
collide across actors. -/
theorem c10_lookup_actor_isolation (dur : ℤ) (ops : List CacheOp)
    (q a r : String) (now : ℤ)
    (h : (get_cached_response q a now dur (run_ops dur ops)).1 = some r) :
    ∃ q' it ot c t, CacheOp.store q' r a it ot c t ∈ ops := by
  obtain ⟨row, hmem, hag, hresp⟩ := get_cached_response_found q a now dur _ r h
  rw [run_ops] at hmem
  rcases mem_foldl_apply_op dur ops [] row hmem with ⟨r0, hr0, -, -⟩ | hfs
  · exact absurd hr0 (List.not_mem_nil r0)
  · obtain ⟨q', it, ot, c, t, hst⟩ := hfs
    exact ⟨q', it, ot, c, t, by rwa [hresp, hag] at hst⟩

/-- C10 (witness): a concrete history with one store by `"alice"` and a
live lookup by `"alice"` that hits; the theorem recovers the store. -/
theorem c10_witness :
    ∃ q' it ot c t,
      CacheOp.store q' "resp" "alice" it ot c t
        ∈ [CacheOp.store "q" "resp" "alice" 1 1 1 0] :=
  c10_lookup_actor_isolation 10 [CacheOp.store "q" "resp" "alice" 1 1 1 0]
    "q" "alice" "resp" 0 (by decide)

/-! ## Claims: failed dispatch is metered -/

/-- C4: when the cache misses and the external dispatch raises `e`,
`TrackedLLM.call` appends exactly one `CostEvent` to the durable store —
with the estimated input units of the (possibly optimized) payload, zero
output units and the `"FAILED: "`-tagged task label — leaves the cache
untouched, and re-raises the original error `e` unchanged. -/
theorem c4_failed_dispatch_metered
    (enable_caching enable_prompt_optimization : Bool)
    (current_agent current_task model session_id : String)
    (cache_duration : ℤ) (e : String) (parsed_usage : Option (ℕ × ℕ))
    (messages : List String) (now : ℤ) (st : CallState)
    (hmiss : (get_cached_response (concatContents messages) current_agent now
        cache_duration st.cacheTbl).1 = none) :
    ∃ ev : CostEvent,
      TrackedLLM.call enable_caching enable_prompt_optimization current_agent
          current_task model session_id cache_duration false (.error e)
          parsed_usage messages now st
        = (.error e, ⟨st.cacheTbl, st.events ++ [ev]⟩) ∧
      ev.output_tokens = 0 ∧
      ev.task_description = "FAILED: " ++ current_task ∧
      ev.input_tokens = estimate_tokens (concatContents
        (if enable_prompt_optimization then (optimize_messages current_agent messages).1
         else messages)) := by
  have h2 : (get_cached_response (concatContents messages) current_agent now
      cache_duration st.cacheTbl).2 = st.cacheTbl := by
    cases hfind : st.cacheTbl.find?
        (rowMatches (generate_query_hash (concatContents messages) current_agent)
          (now - cache_duration) current_agent) with
    | none => simp [get_cached_response, hfind]
    | some row => simp [get_cached_response, hfind] at hmiss
  refine ⟨{ timestamp := now,
            agent_name := current_agent,
            session_id := session_id,
            model := model,
            input_tokens := estimate_tokens (concatContents
              (if enable_prompt_optimization then
                (optimize_messages current_agent messages).1
               else messages)),
            output_tokens := 0,
            cost_usd := calculate_cost model (estimate_tokens (concatContents
              (if enable_prompt_optimization then
                (optimize_messages current_agent messages).1
               else messages))) 0,
            task_description := "FAILED: " ++ current_task }, ?_, rfl, rfl, rfl⟩
  cases enable_caching with
  | false => simp [TrackedLLM.call, call_after_cache, track_api_call, store_event]
  | true =>
    simp [TrackedLLM.call, hmiss, h2, call_after_cache, track_api_call, store_event]

/-- C4 (witness): a concrete failed dispatch on an empty state records
one zero-output `FAILED:`-tagged event and re-raises `"boom"`. -/
theorem c4_witness :
    ∃ ev : CostEvent,
      TrackedLLM.call true true "agent" "task" "m" "sess" 10 false (.error "boom")
          none ["hi"] 0 ⟨[], []⟩
        = (.error "boom", ⟨[], [] ++ [ev]⟩) ∧
      ev.output_tokens = 0 ∧
      ev.task_description = "FAILED: " ++ "task" ∧
      ev.input_tokens = estimate_tokens (concatContents
        (if true then (optimize_messages "agent" ["hi"]).1 else ["hi"])) :=
  c4_failed_dispatch_metered true true "agent" "task" "m" "sess" 10 "boom" none
    ["hi"] 0 ⟨[], []⟩ (by decide)
